import Mathlib

/-!
Verification of the WAVM `ThreadTest` intrinsic module
(`Lib/ThreadTest/ThreadTest.cpp`).

The development shallowly embeds the subsystem: a heap of reference-counted
`Thread` control objects, a registry mapping small positive ids to object
addresses, a per-context store recording each execution context's compartment
and origin, and the five guest-callable operations (`createThread`,
`forkThread`, `exitThread`, `joinThread`, `detachThread`) together with the
helpers `allocateThreadId`, `validateThreadId`, `removeThreadById` and the
spawned-thread trampoline `threadEntry`.

Machine integers: thread ids and reference counts are modelled as `Nat`
(`Uptr` on a 64-bit host); the sentinel `UINTPTR_MAX` is `2 ^ 64 - 1`.
External collaborators (platform thread primitives, the typed-function
invoker) are modelled as plain data flowing through the operations: the
platform join outcome is a parameter, and the invocation performed by a
trampoline is returned as a record describing the call.
-/

namespace ThreadTest

/-- Uptr on a 64-bit host; ids stay far below the bound, so `Nat` is used. -/
abbrev Uptr := Nat

/-- Sentinel stored in `Thread::id` while the object is unregistered. -/
def UINTPTR_MAX : Uptr := 2 ^ 64 - 1

/-- WAVM `IR::ValueType` (the constructors relevant to the intrinsics). -/
inductive ValueType
  | i32
  | i64
  | f32
  | f64
deriving DecidableEq, Repr

/-- WAVM `IR::FunctionType`: results first, then parameters, matching the
`FunctionType(TypeTuple inResults, TypeTuple inParams)` constructor order. -/
structure FunctionType where
  results : List ValueType
  params : List ValueType
deriving DecidableEq, Repr

/-- A `Runtime::Function`: an identity tag plus its encoded function type.
`IR::FunctionType{f->encodedType}` decoding is modelled as reading the
`encodedType` field. -/
structure Function where
  funcId : Nat
  encodedType : FunctionType
deriving DecidableEq, Repr

/-- An `IR::Value` as used here: `createThread` stores its `I32` argument. -/
inductive Value
  | i32 (v : Nat)
  | i64 (v : Nat)
deriving DecidableEq, Repr

/-- How an execution context came into being: `createContext` yields `fresh`,
`cloneContext oldContext` yields `clonedFrom oldContext`. -/
inductive ContextOrigin
  | fresh
  | clonedFrom (parent : Nat)
deriving DecidableEq, Repr

/-- Per-context record: the owning compartment and the context's origin. -/
structure ContextDesc where
  compartment : Nat
  origin : ContextOrigin
deriving DecidableEq, Repr

/-- The `Thread` control object of `ThreadTest.cpp`: registry id (or the
`UINTPTR_MAX` sentinel), atomic reference count, optional platform thread
handle, owned context, entry function and argument. -/
structure ThreadObj where
  id : Uptr
  numRefs : Nat
  platformThread : Option Nat
  context : Nat
  entryFunction : Function
  argument : Value
deriving DecidableEq, Repr

/-- Default object used only to totalize reads; every theorem's hypotheses
keep reads inside the allocated heap. -/
def defaultObj : ThreadObj :=
  { id := UINTPTR_MAX
    numRefs := 0
    platformThread := none
    context := 0
    entryFunction := { funcId := 0, encodedType := { results := [], params := [] } }
    argument := Value.i32 0 }

/-- Exceptions thrown by the subsystem (`throwException` in the source), plus
a constructor standing for any platform-level error during a blocking wait. -/
inductive Exn
  | invalidArgument
  | signatureMismatch
  | platformError
deriving DecidableEq, Repr

/-- Global state: the context store, the heap of control objects (a `none`
slot is a destroyed object), the registry `threads` (slot `k` holds the
mapping for id `k + 1`, matching the `IndexMap`'s minimum index 1), and the
platform's next fresh thread-handle. -/
structure SysState where
  contexts : List ContextDesc
  objects : List (Option ThreadObj)
  threads : List (Option Nat)
  nextPlatformHandle : Nat
deriving DecidableEq, Repr

/-! ### List access helpers -/

theorem getD_nil {α : Type} (i : Nat) (d : α) : ([] : List α).getD i d = d := by
  cases i <;> rfl

theorem getD_cons_zero {α : Type} (x : α) (xs : List α) (d : α) :
    (x :: xs).getD 0 d = x := rfl

theorem getD_cons_succ {α : Type} (x : α) (xs : List α) (n : Nat) (d : α) :
    (x :: xs).getD (n + 1) d = xs.getD n d := rfl

theorem getD_ge {α : Type} (l : List α) (i : Nat) (d : α) (h : l.length ≤ i) :
    l.getD i d = d := by
  induction l generalizing i with
  | nil => exact getD_nil i d
  | cons x xs ih =>
    cases i with
    | zero => simp at h
    | succ n =>
      rw [getD_cons_succ]
      exact ih n (Nat.le_of_succ_le_succ h)

theorem getD_set_self {α : Type} (l : List α) (i : Nat) (a d : α) (h : i < l.length) :
    (l.set i a).getD i d = a := by
  induction l generalizing i with
  | nil => simp at h
  | cons x xs ih =>
    cases i with
    | zero => rfl
    | succ n =>
      rw [List.set_cons_succ, getD_cons_succ]
      exact ih n (Nat.lt_of_succ_lt_succ h)

theorem getD_set_ne {α : Type} (l : List α) (i j : Nat) (a d : α) (h : j ≠ i) :
    (l.set i a).getD j d = l.getD j d := by
  induction l generalizing i j with
  | nil => rfl
  | cons x xs ih =>
    cases i with
    | zero =>
      cases j with
      | zero => exact absurd rfl h
      | succ m => rfl
    | succ n =>
      cases j with
      | zero => rfl
      | succ m =>
        rw [List.set_cons_succ, getD_cons_succ, getD_cons_succ]
        exact ih n m (fun hm => h (congrArg Nat.succ hm))

theorem getD_append_len {α : Type} (l : List α) (a d : α) :
    (l ++ [a]).getD l.length d = a := by
  induction l with
  | nil => rfl
  | cons x xs ih => rw [List.cons_append, List.length_cons, getD_cons_succ]; exact ih

theorem getD_append_lt {α : Type} (l l' : List α) (i : Nat) (d : α) (h : i < l.length) :
    (l ++ l').getD i d = l.getD i d := by
  induction l generalizing i with
  | nil => simp at h
  | cons x xs ih =>
    cases i with
    | zero => rfl
    | succ n =>
      rw [List.cons_append, getD_cons_succ, getD_cons_succ]
      exact ih n (Nat.lt_of_succ_lt_succ h)

/-! ### Registry (`IndexMap<Uptr, IntrusiveSharedPtr<Thread>> threads(1, UINTPTR_MAX)`) -/

/-- Modelled from the spec: the repository's `IndexMap` container (declared in
`WAVM/Inline/IndexMap.h`, which is not under `src/`) as instantiated by
`threads(1, UINTPTR_MAX)`. Per the spec's registry contract, `allocate`
"assigns the smallest available positive integer not currently in use (freed
IDs are recyclable), stores the mapping, returns the ID. Never returns zero."
Slot `k` of the list holds the mapping for id `k + 1` (minimum index 1). -/
def registryAdd : List (Option Nat) → Nat → Nat × List (Option Nat)
  | [], addr => (1, [some addr])
  | none :: rest, addr => (1, some addr :: rest)
  | some a :: rest, addr =>
    let p := registryAdd rest addr
    (p.1 + 1, some a :: p.2)

/-- Modelled from the spec: `IndexMap` lookup; id 0 is below the minimum
index and never mapped. -/
def registryLookup (t : List (Option Nat)) : Nat → Option Nat
  | 0 => none
  | n + 1 => t.getD n none

/-- Modelled from the spec: `IndexMap::contains`, true iff the id is mapped. -/
def registryContains (t : List (Option Nat)) (id : Nat) : Bool :=
  (registryLookup t id).isSome

/-- Modelled from the spec: `IndexMap::removeOrFail`, unmapping the id. -/
def registryRemove (t : List (Option Nat)) : Nat → List (Option Nat)
  | 0 => t
  | n + 1 => t.set n none

theorem registryAdd_fst_pos (t : List (Option Nat)) (a : Nat) : 0 < (registryAdd t a).1 := by
  induction t with
  | nil => exact Nat.one_pos
  | cons x xs ih =>
    cases x with
    | none => exact Nat.one_pos
    | some v => simp only [registryAdd]; exact Nat.succ_pos (registryAdd xs a).1

theorem registryAdd_not_contained (t : List (Option Nat)) (a : Nat) :
    registryContains t (registryAdd t a).1 = false := by
  induction t with
  | nil => rfl
  | cons x xs ih =>
    cases x with
    | none => rfl
    | some v =>
      simp only [registryAdd, registryContains, registryLookup]
      cases hn : (registryAdd xs a).1 with
      | zero => exact absurd hn (Nat.pos_iff_ne_zero.mp (registryAdd_fst_pos xs a))
      | succ m =>
        rw [getD_cons_succ]
        rw [hn] at ih
        simpa [registryContains, registryLookup] using ih

theorem registryAdd_lt_contained (t : List (Option Nat)) (a k : Nat)
    (h1 : 0 < k) (h2 : k < (registryAdd t a).1) : registryContains t k = true := by
  induction t generalizing k with
  | nil => simp [registryAdd] at h2; omega
  | cons x xs ih =>
    cases x with
    | none => simp [registryAdd] at h2; omega
    | some v =>
      simp only [registryAdd] at h2
      cases k with
      | zero => omega
      | succ m =>
        cases m with
        | zero => rfl
        | succ m' =>
          have := ih (m' + 1) (Nat.succ_pos m') (by omega)
          simpa [registryContains, registryLookup, getD_cons_succ] using this

theorem registryAdd_lookup_self (t : List (Option Nat)) (a : Nat) :
    registryLookup (registryAdd t a).2 (registryAdd t a).1 = some a := by
  induction t with
  | nil => rfl
  | cons x xs ih =>
    cases x with
    | none => rfl
    | some v =>
      simp only [registryAdd, registryLookup]
      cases hn : (registryAdd xs a).1 with
      | zero => exact absurd hn (Nat.pos_iff_ne_zero.mp (registryAdd_fst_pos xs a))
      | succ m =>
        rw [getD_cons_succ]
        rw [hn] at ih
        simpa [registryLookup] using ih

theorem registryAdd_lookup_ne (t : List (Option Nat)) (a k : Nat)
    (h : k ≠ (registryAdd t a).1) :
    registryLookup (registryAdd t a).2 k = registryLookup t k := by
  induction t generalizing k with
  | nil =>
    cases k with
    | zero => rfl
    | succ n =>
      cases n with
      | zero => exact absurd rfl h
      | succ m => rfl
  | cons x xs ih =>
    cases x with
    | none =>
      cases k with
      | zero => rfl
      | succ n =>
        cases n with
        | zero => exact absurd rfl h
        | succ m => rfl
    | some v =>
      cases k with
      | zero => rfl
      | succ n =>
        cases n with
        | zero => rfl
        | succ m =>
          simp only [registryAdd, registryLookup, getD_cons_succ]
          have hne : m + 1 ≠ (registryAdd xs a).1 := by
            intro hc
            exact h (by simp [registryAdd, hc])
          exact ih (m + 1) hne

theorem registryRemove_not_contained (t : List (Option Nat)) (id : Nat) (h : 0 < id) :
    registryContains (registryRemove t id) id = false := by
  cases id with
  | zero => omega
  | succ n =>
    simp only [registryContains, registryLookup, registryRemove]
    by_cases hl : n < t.length
    · rw [getD_set_self t n none none hl]; rfl
    · rw [getD_ge _ n none (by simpa [Nat.not_lt] using hl)]; rfl

theorem registryRemove_lookup_ne (t : List (Option Nat)) (id k : Nat) (h : k ≠ id) :
    registryLookup (registryRemove t id) k = registryLookup t k := by
  cases id with
  | zero => rfl
  | succ n =>
    cases k with
    | zero => rfl
    | succ m =>
      simp only [registryLookup, registryRemove]
      exact getD_set_ne t n m none none (fun hm => h (by omega))

/-! ### Heap of control objects and the intrusive reference count -/

/-- Read the control object stored at a heap address. -/
def getObj (s : SysState) (addr : Nat) : Option ThreadObj :=
  s.objects.getD addr none

/-- Update (or destroy, when `f` yields `none`) the object at `addr`. -/
def updateObject (s : SysState) (addr : Nat) (f : ThreadObj → Option ThreadObj) : SysState :=
  { s with objects := s.objects.set addr ((s.objects.getD addr none).bind f) }

/-- Model of `Thread::addRef(delta)`: `numRefs += delta`, a single atomic increment. -/
def heapAddRef (s : SysState) (addr : Nat) (delta : Nat) : SysState :=
  updateObject s addr (fun o => some { o with numRefs := o.numRefs + delta })

/-- Model of `Thread::removeRef()`: `if(--numRefs == 0) delete this;` — a single atomic
decrement that destroys the object exactly when the count reaches zero. -/
def heapRemoveRef (s : SysState) (addr : Nat) : SysState :=
  updateObject s addr
    (fun o => if o.numRefs - 1 = 0 then none else some { o with numRefs := o.numRefs - 1 })

theorem getObj_updateObject_self (s : SysState) (addr : Nat) (f : ThreadObj → Option ThreadObj) :
    getObj (updateObject s addr f) addr = (getObj s addr).bind f := by
  simp only [getObj, updateObject]
  by_cases h : addr < s.objects.length
  · exact getD_set_self _ _ _ _ h
  · rw [List.set_eq_of_length_le (by omega), getD_ge _ _ _ (by omega)]
    rfl

theorem getObj_updateObject_ne (s : SysState) (addr addr' : Nat)
    (f : ThreadObj → Option ThreadObj) (h : addr' ≠ addr) :
    getObj (updateObject s addr f) addr' = getObj s addr' := by
  simp only [getObj, updateObject]
  exact getD_set_ne _ _ _ _ _ h

theorem threads_updateObject (s : SysState) (addr : Nat) (f : ThreadObj → Option ThreadObj) :
    (updateObject s addr f).threads = s.threads := rfl

theorem contexts_updateObject (s : SysState) (addr : Nat) (f : ThreadObj → Option ThreadObj) :
    (updateObject s addr f).contexts = s.contexts := rfl

/-! ### Contexts, object allocation, platform handles -/

/-- Model of `getCompartmentFromContext`: the compartment a context lives in. A read
outside the store is totalized with compartment 0; the operations only read
contexts they were given by the runtime. -/
def compartmentOfContext (s : SysState) (ctx : Nat) : Nat :=
  (s.contexts.getD ctx { compartment := 0, origin := ContextOrigin.fresh }).compartment

/-- Model of `Runtime::createContext(compartment)`: a fresh context in `compartment`. -/
def createContext (s : SysState) (compartment : Nat) : Nat × SysState :=
  (s.contexts.length,
   { s with contexts := s.contexts ++ [{ compartment := compartment, origin := .fresh }] })

/-- Model of `Runtime::cloneContext(oldContext, compartment)`: a new context cloned
from `oldContext`, in `compartment`. -/
def cloneContext (s : SysState) (oldContext compartment : Nat) : Nat × SysState :=
  (s.contexts.length,
   { s with
     contexts := s.contexts ++ [{ compartment := compartment, origin := .clonedFrom oldContext }] })

/-- Model of `new Thread(...)`: allocate a control object at a fresh heap address. -/
def allocObject (s : SysState) (obj : ThreadObj) : Nat × SysState :=
  (s.objects.length, { s with objects := s.objects ++ [some obj] })

/-- The platform hands out a fresh OS-thread handle (`Platform::createThread`
spawning a thread, or `Platform::forkCurrentThread` on the parent path). -/
def platformFreshHandle (s : SysState) : Nat × SysState :=
  (s.nextPlatformHandle, { s with nextPlatformHandle := s.nextPlatformHandle + 1 })

theorem getObj_allocObject_self (s : SysState) (obj : ThreadObj) :
    getObj (allocObject s obj).2 (allocObject s obj).1 = some obj := by
  simp only [getObj, allocObject]
  exact getD_append_len _ _ _

theorem getObj_allocObject_lt (s : SysState) (obj : ThreadObj) (addr : Nat)
    (h : addr < s.objects.length) :
    getObj (allocObject s obj).2 addr = getObj s addr := by
  simp only [getObj, allocObject]
  exact getD_append_lt _ _ _ _ h

/-! ### Operations of the intrinsic module -/

/-- Model of `validateThreadId`: throws `invalidArgument` unless
`0 < threadId` and `threads.contains(threadId)`. Caller holds `threadsMutex`. -/
def validateThreadId (t : List (Option Nat)) (threadId : Uptr) : Except Exn Unit :=
  if threadId = 0 || !(registryContains t threadId) then .error .invalidArgument
  else .ok ()

/-- Replace the registry mapping (the in-place mutation of the global
`threads` map performed under `threadsMutex`). -/
def setThreads (s : SysState) (t : List (Option Nat)) : SysState :=
  { s with threads := t }

/-- Model of `allocateThreadId`: under `threadsMutex`, `thread->id = threads.add(0, thread)`.
Storing the `IntrusiveSharedPtr` in the registry slot acquires one reference.
`errorUnless(thread->id != 0)` holds by `registryAdd_fst_pos`. -/
def allocateThreadId (s : SysState) (addr : Nat) : Nat × SysState :=
  let p := registryAdd s.threads addr
  let s1 := setThreads s p.2
  let s2 := heapAddRef s1 addr 1
  (p.1, updateObject s2 addr (fun o => some { o with id := p.1 }))

/-- Record of the single call `invokeFunctionUnchecked(thread->context,
thread->entryFunction, &thread->argument)` a trampoline performs. -/
structure InvokeCall where
  context : Nat
  function : Function
  argument : Value
deriving DecidableEq, Repr

/-- Result of running `threadEntry` on the spawned OS thread. -/
structure EntryResult where
  state : SysState
  currentThread : Option Nat
  call : InvokeCall
deriving DecidableEq, Repr

/-- Model of `threadEntry(threadVoid)`: the spawned thread's trampoline. It assigns
`currentThread = thread` (the thread-local `IntrusiveSharedPtr` acquires a
reference; the fresh OS thread's slot starts out null), calls
`thread->removeRef()` to release the spawn-time reference, then invokes the
entry function on the thread's context with its argument. -/
def threadEntry (s : SysState) (addr : Nat) : EntryResult :=
  let obj := (getObj s addr).getD defaultObj
  let s1 := heapAddRef s addr 1
  let s2 := heapRemoveRef s1 addr
  { state := s2
    currentThread := some addr
    call := { context := obj.context, function := obj.entryFunction, argument := obj.argument } }

/-- The function type `(i32) -> i64` demanded of an entry function:
`FunctionType(TypeTuple{ValueType::i64}, TypeTuple{ValueType::i32})`. -/
def expectedEntryType : FunctionType :=
  { results := [ValueType.i64], params := [ValueType.i32] }

deriving instance DecidableEq for Except

/-- Result of `createThread`: the state after the creating call, the returned
id or exception, and the heap address handed to the spawned OS thread's
trampoline (`none` when nothing was spawned). -/
structure CreateResult where
  state : SysState
  ret : Except Exn Uptr
  spawned : Option Nat
deriving DecidableEq, Repr

/-- Model of `createThread(entryFunction, entryArgument)` with the calling context
`contextRuntimeData`. Rejects a null entry function or one whose type is not
`(i32) -> i64` with `indirectCallSignatureMismatch`; otherwise creates a fresh
context in the caller's compartment, allocates the control object, registers
it (the registry slot acquiring one reference), adds one reference for the
pointer passed to the spawned thread's trampoline, spawns the platform
thread, and returns the new id. -/
def createThread (s : SysState) (contextRuntimeData : Nat) (entryFunction : Option Function)
    (entryArgument : Nat) : CreateResult :=
  match entryFunction with
  | none => { state := s, ret := .error .signatureMismatch, spawned := none }
  | some f =>
    if f.encodedType ≠ expectedEntryType then
      { state := s, ret := .error .signatureMismatch, spawned := none }
    else
      let compartment := compartmentOfContext s contextRuntimeData
      let p1 := createContext s compartment
      let p2 := allocObject p1.2
        { id := UINTPTR_MAX
          numRefs := 0
          platformThread := none
          context := p1.1
          entryFunction := f
          argument := Value.i32 entryArgument }
      let p3 := allocateThreadId p2.2 p2.1
      let s4 := heapAddRef p3.2 p2.1 1
      let p5 := platformFreshHandle s4
      let s6 := updateObject p5.2 p2.1 (fun o => some { o with platformThread := some p5.1 })
      { state := s6, ret := .ok p3.1, spawned := some p2.1 }

/-- One reference-count event on the heap, used to trace the acquisitions and
releases each continuation of `forkThread` performs. -/
inductive RefEvent
  | acquire (addr : Nat) (delta : Nat)
  | release (addr : Nat)
deriving DecidableEq, Repr

/-- Whether an event releases one reference of the object at `addr`. -/
def RefEvent.releases (e : RefEvent) (addr : Nat) : Bool :=
  match e with
  | .release a => a = addr
  | .acquire _ _ => false

/-- State, child object and cloned context after the part of `forkThread`
that runs before `Platform::forkCurrentThread`: clone the caller's context
into its compartment, construct the child control object reusing the parent
object's entry function and argument, and pre-increment its reference count
by two (`childThread->addRef(2)`). -/
structure ForkPre where
  state : SysState
  childAddr : Nat
  newContext : Nat
  events : List RefEvent
deriving DecidableEq, Repr

def forkThreadPre (s : SysState) (contextRuntimeData : Nat) (parentAddr : Nat) : ForkPre :=
  let oldContext := contextRuntimeData
  let compartment := compartmentOfContext s oldContext
  let p1 := cloneContext s oldContext compartment
  let parent := (getObj s parentAddr).getD defaultObj
  let p2 := allocObject p1.2
    { id := UINTPTR_MAX
      numRefs := 0
      platformThread := none
      context := p1.1
      entryFunction := parent.entryFunction
      argument := parent.argument }
  let s3 := heapAddRef p2.2 p2.1 2
  { state := s3, childAddr := p2.1, newContext := p1.1
    events := [.acquire p2.1 2] }

/-- Parent continuation of `forkThread` (`Platform::forkCurrentThread`
returned a platform thread): attach the handle to the child object, allocate
a registry id for it (the registry slot acquiring one reference), release one
of the pre-incremented references, and return the child id. -/
structure ForkParent where
  state : SysState
  threadId : Uptr
  events : List RefEvent
deriving DecidableEq, Repr

def forkThreadParentPath (s : SysState) (childAddr platformHandle : Nat) : ForkParent :=
  let s1 := updateObject s childAddr (fun o => some { o with platformThread := some platformHandle })
  let p2 := allocateThreadId s1 childAddr
  let s3 := heapRemoveRef p2.2 childAddr
  { state := s3, threadId := p2.1
    events := [.acquire childAddr 1, .release childAddr] }

/-- Child continuation of `forkThread` (`Platform::forkCurrentThread`
returned null on the duplicated stack): `setCurrentThread(childThread)`
stores the child in the fresh OS thread's thread-local slot (acquiring one
reference), `childThread->removeRef()` releases one of the pre-incremented
references, and the continuation switches its context runtime data to the
cloned context and returns 0. -/
structure ForkChild where
  state : SysState
  currentThread : Option Nat
  contextRuntimeData : Nat
  ret : Nat
  events : List RefEvent
deriving DecidableEq, Repr

def forkThreadChildPath (s : SysState) (childAddr newContext : Nat) : ForkChild :=
  let s1 := heapAddRef s childAddr 1
  let s2 := heapRemoveRef s1 childAddr
  { state := s2, currentThread := some childAddr, contextRuntimeData := newContext
    ret := 0
    events := [.acquire childAddr 1, .release childAddr] }

/-- The whole `forkThread` call: the pre-fork part, then the two
continuations of the stack-duplicating fork primitive, linearized parent path
first (the reference-count updates of the two paths are independent atomic
operations on the child object). `parentAddr` is the calling OS thread's
`currentThread` object (`wavmAssert(currentThread)`). -/
structure ForkResult where
  state : SysState
  parentRet : Uptr
  parentContextRuntimeData : Nat
  childRet : Nat
  childAddr : Nat
  childCurrentThread : Option Nat
  childContextRuntimeData : Nat
  preEvents : List RefEvent
  parentEvents : List RefEvent
  childEvents : List RefEvent
deriving DecidableEq, Repr

def forkThread (s : SysState) (contextRuntimeData : Nat) (parentAddr : Nat) : ForkResult :=
  let pre := forkThreadPre s contextRuntimeData parentAddr
  let ph := platformFreshHandle pre.state
  let par := forkThreadParentPath ph.2 pre.childAddr ph.1
  let child := forkThreadChildPath par.state pre.childAddr pre.newContext
  { state := child.state
    parentRet := par.threadId
    parentContextRuntimeData := contextRuntimeData
    childRet := child.ret
    childAddr := pre.childAddr
    childCurrentThread := child.currentThread
    childContextRuntimeData := child.contextRuntimeData
    preEvents := pre.events
    parentEvents := par.events
    childEvents := child.events }

/-- The single call `exitThread` passes to the platform layer. -/
inductive PlatformCall
  | exitCurrentThread (code : Int)
deriving DecidableEq, Repr

/-- Model of `exitThread(code)`: `Platform::exitThread(code)` and nothing else. The
state and the calling OS thread's `currentThread` slot flow through so the
theorem can state that neither is touched. -/
def exitThread (s : SysState) (currentThread : Option Nat) (code : Int) :
    SysState × Option Nat × PlatformCall :=
  (s, currentThread, PlatformCall.exitCurrentThread code)

/-- Model of `removeThreadById(threadId)`: under `threadsMutex`, validate the id, move
the registry slot's `IntrusiveSharedPtr` out to the caller (an ownership
transfer, so no reference-count change), unmap the id, and reset the removed
object's stored id to `UINTPTR_MAX`. Returns the object's heap address, whose
reference the caller now holds. -/
def removeThreadById (s : SysState) (threadId : Uptr) : Except Exn (SysState × Nat) :=
  match validateThreadId s.threads threadId with
  | .error e => .error e
  | .ok _ =>
    match registryLookup s.threads threadId with
    | none => .error .invalidArgument
    | some addr =>
      let s1 := { s with threads := registryRemove s.threads threadId }
      .ok (updateObject s1 addr (fun o => some { o with id := UINTPTR_MAX }), addr)

/-- Model of `joinThread(threadId)`: remove the thread from the registry, block in
`Platform::joinThread` on its platform handle (the outcome of that wait — the
target's exit code, or an error raised during it — is the parameter
`joinOutcome`), clear the handle on the successful path, and in either case
release the call-scoped reference when the `IntrusiveSharedPtr` goes out of
scope. -/
def joinThread (s : SysState) (threadId : Uptr) (joinOutcome : Except Exn Int) :
    SysState × Except Exn Int :=
  match removeThreadById s threadId with
  | .error e => (s, .error e)
  | .ok p =>
    match joinOutcome with
    | .error e => (heapRemoveRef p.1 p.2, .error e)
    | .ok code =>
      let s2 := updateObject p.1 p.2 (fun o => some { o with platformThread := none })
      (heapRemoveRef s2 p.2, .ok code)

/-- Model of `detachThread(threadId)`: remove the thread from the registry, detach its
platform thread, clear the handle, and release the call-scoped reference. -/
def detachThread (s : SysState) (threadId : Uptr) : SysState × Except Exn Unit :=
  match removeThreadById s threadId with
  | .error e => (s, .error e)
  | .ok p =>
    let s2 := updateObject p.1 p.2 (fun o => some { o with platformThread := none })
    (heapRemoveRef s2 p.2, .ok ())

/-! ### Helper lemmas about the operations -/

theorem fst_createContext (s : SysState) (c : Nat) : (createContext s c).1 = s.contexts.length := rfl

theorem contexts_createContext (s : SysState) (c : Nat) :
    (createContext s c).2.contexts = s.contexts ++ [{ compartment := c, origin := .fresh }] := rfl

theorem getObj_createContext (s : SysState) (c a : Nat) :
    getObj (createContext s c).2 a = getObj s a := rfl

theorem threads_createContext (s : SysState) (c : Nat) :
    (createContext s c).2.threads = s.threads := rfl

theorem objects_createContext (s : SysState) (c : Nat) :
    (createContext s c).2.objects = s.objects := rfl

theorem nextHandle_createContext (s : SysState) (c : Nat) :
    (createContext s c).2.nextPlatformHandle = s.nextPlatformHandle := rfl

theorem fst_cloneContext (s : SysState) (old c : Nat) :
    (cloneContext s old c).1 = s.contexts.length := rfl

theorem contexts_cloneContext (s : SysState) (old c : Nat) :
    (cloneContext s old c).2.contexts
      = s.contexts ++ [{ compartment := c, origin := .clonedFrom old }] := rfl

theorem getObj_cloneContext (s : SysState) (old c a : Nat) :
    getObj (cloneContext s old c).2 a = getObj s a := rfl

theorem threads_cloneContext (s : SysState) (old c : Nat) :
    (cloneContext s old c).2.threads = s.threads := rfl

theorem objects_cloneContext (s : SysState) (old c : Nat) :
    (cloneContext s old c).2.objects = s.objects := rfl

theorem nextHandle_cloneContext (s : SysState) (old c : Nat) :
    (cloneContext s old c).2.nextPlatformHandle = s.nextPlatformHandle := rfl

theorem fst_allocObject (s : SysState) (o : ThreadObj) :
    (allocObject s o).1 = s.objects.length := rfl

theorem getObj_allocObject_at (s : SysState) (o : ThreadObj) (a : Nat)
    (h : a = s.objects.length) : getObj (allocObject s o).2 a = some o := by
  rw [h]
  exact getObj_allocObject_self s o

theorem threads_allocObject (s : SysState) (o : ThreadObj) :
    (allocObject s o).2.threads = s.threads := rfl

theorem contexts_allocObject (s : SysState) (o : ThreadObj) :
    (allocObject s o).2.contexts = s.contexts := rfl

theorem nextHandle_allocObject (s : SysState) (o : ThreadObj) :
    (allocObject s o).2.nextPlatformHandle = s.nextPlatformHandle := rfl

theorem fst_platformFreshHandle (s : SysState) :
    (platformFreshHandle s).1 = s.nextPlatformHandle := rfl

theorem getObj_platformFreshHandle (s : SysState) (a : Nat) :
    getObj (platformFreshHandle s).2 a = getObj s a := rfl

theorem threads_platformFreshHandle (s : SysState) :
    (platformFreshHandle s).2.threads = s.threads := rfl

theorem contexts_platformFreshHandle (s : SysState) :
    (platformFreshHandle s).2.contexts = s.contexts := rfl

theorem getObj_setThreads (s : SysState) (t : List (Option Nat)) (a : Nat) :
    getObj (setThreads s t) a = getObj s a := rfl

theorem threads_setThreads (s : SysState) (t : List (Option Nat)) :
    (setThreads s t).threads = t := rfl

theorem contexts_setThreads (s : SysState) (t : List (Option Nat)) :
    (setThreads s t).contexts = s.contexts := rfl

theorem nextHandle_setThreads (s : SysState) (t : List (Option Nat)) :
    (setThreads s t).nextPlatformHandle = s.nextPlatformHandle := rfl

theorem nextHandle_updateObject (s : SysState) (a : Nat) (f : ThreadObj → Option ThreadObj) :
    (updateObject s a f).nextPlatformHandle = s.nextPlatformHandle := rfl

theorem objects_length_updateObject (s : SysState) (a : Nat) (f : ThreadObj → Option ThreadObj) :
    (updateObject s a f).objects.length = s.objects.length := by
  simp [updateObject]

theorem objects_length_setThreads (s : SysState) (t : List (Option Nat)) :
    (setThreads s t).objects.length = s.objects.length := rfl

theorem registryAdd_eq_least (t : List (Option Nat)) (a k : Nat) (h0 : 0 < k)
    (hk : registryContains t k = false)
    (hlt : ∀ j, 0 < j → j < k → registryContains t j = true) :
    (registryAdd t a).1 = k := by
  rcases Nat.lt_trichotomy (registryAdd t a).1 k with h | h | h
  · have := hlt (registryAdd t a).1 (registryAdd_fst_pos t a) h
    rw [registryAdd_not_contained t a] at this
    exact absurd this (by simp)
  · exact h
  · have := registryAdd_lt_contained t a k h0 h
    rw [hk] at this
    exact absurd this (by simp)

theorem removeThreadById_eq_error (s : SysState) (id : Uptr)
    (h : id = 0 ∨ registryContains s.threads id = false) :
    removeThreadById s id = .error .invalidArgument := by
  rcases h with h | h
  · simp [removeThreadById, validateThreadId, h]
  · simp [removeThreadById, validateThreadId, h]

theorem removeThreadById_eq_ok (s : SysState) (id : Uptr) (addr : Nat)
    (h : registryLookup s.threads id = some addr) :
    removeThreadById s id
      = .ok (updateObject { s with threads := registryRemove s.threads id } addr
               (fun o => some { o with id := UINTPTR_MAX }), addr) := by
  have h0 : id ≠ 0 := by
    intro hc
    rw [hc] at h
    exact Option.noConfusion h
  have hc : registryContains s.threads id = true := by
    simp [registryContains, h]
  simp [removeThreadById, validateThreadId, h0, hc, h]

theorem removeThreadById_cases (s : SysState) (id : Uptr) :
    removeThreadById s id = .error .invalidArgument
      ∨ ∃ p, removeThreadById s id = .ok p := by
  by_cases h0 : id = 0
  · exact Or.inl (removeThreadById_eq_error s id (Or.inl h0))
  by_cases hc : registryContains s.threads id = true
  · obtain ⟨addr, ha⟩ := Option.isSome_iff_exists.mp hc
    exact Or.inr ⟨_, removeThreadById_eq_ok s id addr ha⟩
  · exact Or.inl (removeThreadById_eq_error s id
      (Or.inr (Bool.eq_false_iff.mpr hc)))

theorem removeThreadById_ok_inv (s : SysState) (id : Uptr) (s' : SysState) (addr : Nat)
    (h : removeThreadById s id = .ok (s', addr)) :
    registryLookup s.threads id = some addr
      ∧ s' = updateObject { s with threads := registryRemove s.threads id } addr
          (fun o => some { o with id := UINTPTR_MAX }) := by
  by_cases h0 : id = 0
  · rw [removeThreadById_eq_error s id (Or.inl h0)] at h
    exact Except.noConfusion h
  by_cases hc : registryContains s.threads id = true
  · obtain ⟨a, ha⟩ := Option.isSome_iff_exists.mp hc
    rw [removeThreadById_eq_ok s id a ha] at h
    obtain ⟨h1, h2⟩ := Prod.mk.injEq .. ▸ Except.ok.inj h
    subst h2
    exact ⟨ha, h1.symm⟩
  · rw [removeThreadById_eq_error s id (Or.inr (Bool.eq_false_iff.mpr hc))] at h
    exact Except.noConfusion h

theorem registryLookup_zero (t : List (Option Nat)) : registryLookup t 0 = none := rfl

theorem lookup_pos (t : List (Option Nat)) (id addr : Nat)
    (h : registryLookup t id = some addr) : 0 < id := by
  cases id with
  | zero => exact Option.noConfusion h
  | succ n => exact Nat.succ_pos n

/-! ## The claims -/

/-- C5: `addRef(n)` atomically increases a control object's reference count by
`n` and `removeRef` atomically decreases it by one; the object is destroyed
exactly when a `removeRef` transitions the count to zero and never before;
neither operation reads or writes the registry, so neither requires its
lock. -/
theorem addRef_removeRef_spec (s : SysState) (addr : Nat) (obj : ThreadObj) (delta : Nat)
    (h : getObj s addr = some obj) :
    (getObj (heapAddRef s addr delta) addr = some { obj with numRefs := obj.numRefs + delta }
      ∧ (heapAddRef s addr delta).threads = s.threads
      ∧ (∀ a, a ≠ addr → getObj (heapAddRef s addr delta) a = getObj s a))
    ∧ ((obj.numRefs = 1 → getObj (heapRemoveRef s addr) addr = none)
      ∧ (1 < obj.numRefs →
          getObj (heapRemoveRef s addr) addr = some { obj with numRefs := obj.numRefs - 1 })
      ∧ (heapRemoveRef s addr).threads = s.threads
      ∧ (∀ a, a ≠ addr → getObj (heapRemoveRef s addr) a = getObj s a)) := by
  refine ⟨⟨?_, rfl, ?_⟩, ?_, ?_, rfl, ?_⟩
  · rw [heapAddRef, getObj_updateObject_self, h]
    rfl
  · intro a ha
    exact getObj_updateObject_ne s addr a _ ha
  · intro h1
    rw [heapRemoveRef, getObj_updateObject_self, h]
    simp [h1]
  · intro h1
    rw [heapRemoveRef, getObj_updateObject_self, h]
    have hne : ¬(obj.numRefs - 1 = 0) := by omega
    simp [hne]
  · intro a ha
    exact getObj_updateObject_ne s addr a _ ha

/-- C5 witness: a concrete heap with one object of reference count 1. -/
theorem addRef_removeRef_spec_witness :
    (getObj (heapAddRef ⟨[], [some { defaultObj with numRefs := 1 }], [], 0⟩ 0 2) 0
        = some { defaultObj with numRefs := 3 }
      ∧ (heapAddRef ⟨[], [some { defaultObj with numRefs := 1 }], [], 0⟩ 0 2).threads = []
      ∧ (∀ a, a ≠ 0 →
          getObj (heapAddRef ⟨[], [some { defaultObj with numRefs := 1 }], [], 0⟩ 0 2) a
            = getObj ⟨[], [some { defaultObj with numRefs := 1 }], [], 0⟩ a))
    ∧ (({ defaultObj with numRefs := 1 }.numRefs = 1 →
          getObj (heapRemoveRef ⟨[], [some { defaultObj with numRefs := 1 }], [], 0⟩ 0) 0 = none)
      ∧ (1 < ({ defaultObj with numRefs := 1 } : ThreadObj).numRefs →
          getObj (heapRemoveRef ⟨[], [some { defaultObj with numRefs := 1 }], [], 0⟩ 0) 0
            = some { defaultObj with numRefs := 0 })
      ∧ (heapRemoveRef ⟨[], [some { defaultObj with numRefs := 1 }], [], 0⟩ 0).threads = []
      ∧ (∀ a, a ≠ 0 →
          getObj (heapRemoveRef ⟨[], [some { defaultObj with numRefs := 1 }], [], 0⟩ 0) a
            = getObj ⟨[], [some { defaultObj with numRefs := 1 }], [], 0⟩ a)) :=
  addRef_removeRef_spec ⟨[], [some { defaultObj with numRefs := 1 }], [], 0⟩ 0
    { defaultObj with numRefs := 1 } 2 rfl

/-- C10: `exitThread(code)` mutates no state of the subsystem — not the
registry, not the heap (so no reference count), not the calling thread's
`currentThread` slot — and its only action is passing `code` to the platform
thread-exit primitive. -/
theorem exitThread_frame (s : SysState) (ct : Option Nat) (code : Int) :
    (exitThread s ct code).1 = s
      ∧ (exitThread s ct code).2.1 = ct
      ∧ (exitThread s ct code).2.2 = PlatformCall.exitCurrentThread code :=
  ⟨rfl, rfl, rfl⟩

/-- Registered sample state: one context, one live control object at heap
address 0 with reference count 1 (the registry's), registered under id 1. -/
def sampleReg : SysState :=
  ⟨[⟨7, .fresh⟩], [some { defaultObj with id := 1, numRefs := 1 }], [some 0], 100⟩

/-- C3: `joinThread(id)` and `detachThread(id)` fail with `invalidArgument`
iff `id` is zero or not currently mapped (so a second join/detach of an id
removed by a successful detach fails with `invalidArgument`); a successful
removal unmaps the id, resets the removed object's stored id to
`UINTPTR_MAX` and hands the registry's reference to the caller (the object —
reference count included — is otherwise untouched). -/
theorem join_detach_invalid_spec (s : SysState) (threadId : Uptr) :
    ((removeThreadById s threadId = .error .invalidArgument)
        ↔ (threadId = 0 ∨ registryContains s.threads threadId = false))
    ∧ (∀ code : Int, ((joinThread s threadId (.ok code)).2 = .error .invalidArgument
        ↔ (threadId = 0 ∨ registryContains s.threads threadId = false)))
    ∧ ((detachThread s threadId).2 = .error .invalidArgument
        ↔ (threadId = 0 ∨ registryContains s.threads threadId = false))
    ∧ (∀ s' addr, removeThreadById s threadId = .ok (s', addr) →
        registryLookup s.threads threadId = some addr
        ∧ registryContains s'.threads threadId = false
        ∧ getObj s' addr = Option.map (fun o => { o with id := UINTPTR_MAX }) (getObj s addr))
    ∧ ((detachThread s threadId).2 = .ok () →
        ∀ out, joinThread (detachThread s threadId).1 threadId out
          = ((detachThread s threadId).1, .error .invalidArgument)) := by
  by_cases hbad : threadId = 0 ∨ registryContains s.threads threadId = false
  · have herr := removeThreadById_eq_error s threadId hbad
    refine ⟨?_, ?_, ?_, ?_, ?_⟩
    · exact ⟨fun _ => hbad, fun _ => herr⟩
    · intro code
      constructor
      · exact fun _ => hbad
      · intro _
        simp [joinThread, herr]
    · constructor
      · exact fun _ => hbad
      · intro _
        simp [detachThread, herr]
    · intro s' addr hok
      rw [herr] at hok
      exact Except.noConfusion hok
    · intro hdet
      rw [show (detachThread s threadId).2 = .error .invalidArgument by
            simp [detachThread, herr]] at hdet
      exact Except.noConfusion hdet
  · push_neg at hbad
    obtain ⟨h0, hc⟩ := hbad
    have hc' : registryContains s.threads threadId = true := by
      cases hcc : registryContains s.threads threadId with
      | false => exact absurd hcc hc
      | true => rfl
    obtain ⟨addr, ha⟩ := Option.isSome_iff_exists.mp hc'
    have hrem := removeThreadById_eq_ok s threadId addr ha
    have hnot0 : ¬(threadId = 0 ∨ registryContains s.threads threadId = false) := by
      intro hcon
      rcases hcon with hcon | hcon
      · exact h0 hcon
      · rw [hc'] at hcon
        exact Bool.noConfusion hcon
    have hpos : 0 < threadId := lookup_pos s.threads threadId addr ha
    refine ⟨?_, ?_, ?_, ?_, ?_⟩
    · constructor
      · intro hr
        rw [hrem] at hr
        exact Except.noConfusion hr
      · exact fun hcon => absurd hcon hnot0
    · intro code
      constructor
      · intro hr
        rw [show (joinThread s threadId (.ok code)).2 = .ok code by
              simp [joinThread, hrem]] at hr
        exact Except.noConfusion hr
      · exact fun hcon => absurd hcon hnot0
    · constructor
      · intro hr
        rw [show (detachThread s threadId).2 = .ok () by simp [detachThread, hrem]] at hr
        exact Except.noConfusion hr
      · exact fun hcon => absurd hcon hnot0
    · intro s' addr' hok
      obtain ⟨hl, hs'⟩ := removeThreadById_ok_inv s threadId s' addr' hok
      refine ⟨hl, ?_, ?_⟩
      · rw [hs', threads_updateObject]
        exact registryRemove_not_contained s.threads threadId hpos
      · rw [hs', getObj_updateObject_self]
        have hgo : getObj { s with threads := registryRemove s.threads threadId } addr'
            = getObj s addr' := rfl
        rw [hgo]
        cases getObj s addr' <;> rfl
    · intro _ out
      have hthreads : (detachThread s threadId).1.threads = registryRemove s.threads threadId := by
        simp [detachThread, hrem, heapRemoveRef, threads_updateObject]
      have hc2 : registryContains (detachThread s threadId).1.threads threadId = false := by
        rw [hthreads]
        exact registryRemove_not_contained s.threads threadId hpos
      have herr2 := removeThreadById_eq_error (detachThread s threadId).1 threadId (Or.inr hc2)
      simp [joinThread, herr2]

/-- C3 witness: detach of the registered id 1 succeeds and the immediately
following join fails with `invalidArgument`; removal resets the stored id to
the sentinel. -/
theorem join_detach_invalid_spec_witness :
    ((removeThreadById sampleReg 0 = .error .invalidArgument)
        ↔ (0 = 0 ∨ registryContains sampleReg.threads 0 = false))
    ∧ (registryLookup sampleReg.threads 1 = some 0
        ∧ registryContains
            (updateObject { sampleReg with threads := registryRemove sampleReg.threads 1 } 0
              (fun o => some { o with id := UINTPTR_MAX })).threads 1 = false
        ∧ getObj (updateObject { sampleReg with threads := registryRemove sampleReg.threads 1 } 0
              (fun o => some { o with id := UINTPTR_MAX })) 0
            = Option.map (fun o => { o with id := UINTPTR_MAX }) (getObj sampleReg 0))
    ∧ joinThread (detachThread sampleReg 1).1 1 (.ok 5)
        = ((detachThread sampleReg 1).1, .error .invalidArgument) :=
  ⟨(join_detach_invalid_spec sampleReg 0).1,
   (join_detach_invalid_spec sampleReg 1).2.2.2.1
     (updateObject { sampleReg with threads := registryRemove sampleReg.threads 1 } 0
       (fun o => some { o with id := UINTPTR_MAX })) 0 (by rfl),
   (join_detach_invalid_spec sampleReg 1).2.2.2.2 (by rfl) (.ok 5)⟩

/-- C9: removal is linearizable for racing join/detach on the same mapped id
(the registry mutex makes each `removeThreadById` atomic, so a race is one of
the two serialized orders): whichever caller removes first succeeds, the
other observes `invalidArgument` and leaves the state untouched — no double
removal, and the loser never receives the object. -/
theorem removal_race_spec (s : SysState) (id : Uptr) (code : Int)
    (h : registryContains s.threads id = true) :
    ((joinThread s id (.ok code)).2 = .ok code
      ∧ detachThread (joinThread s id (.ok code)).1 id
          = ((joinThread s id (.ok code)).1, .error .invalidArgument))
    ∧ ((detachThread s id).2 = .ok ()
      ∧ joinThread (detachThread s id).1 id (.ok code)
          = ((detachThread s id).1, .error .invalidArgument))
    ∧ (∀ s' addr, removeThreadById s id = .ok (s', addr) →
        removeThreadById s' id = .error .invalidArgument) := by
  obtain ⟨addr, ha⟩ := Option.isSome_iff_exists.mp h
  have hpos : 0 < id := lookup_pos s.threads id addr ha
  have hrem := removeThreadById_eq_ok s id addr ha
  refine ⟨⟨?_, ?_⟩, ⟨?_, ?_⟩, ?_⟩
  · simp [joinThread, hrem]
  · have hthreads : (joinThread s id (.ok code)).1.threads = registryRemove s.threads id := by
      simp [joinThread, hrem, heapRemoveRef, threads_updateObject]
    have hc2 : registryContains (joinThread s id (.ok code)).1.threads id = false := by
      rw [hthreads]
      exact registryRemove_not_contained s.threads id hpos
    have herr2 := removeThreadById_eq_error (joinThread s id (.ok code)).1 id (Or.inr hc2)
    simp [detachThread, herr2]
  · simp [detachThread, hrem]
  · have hthreads : (detachThread s id).1.threads = registryRemove s.threads id := by
      simp [detachThread, hrem, heapRemoveRef, threads_updateObject]
    have hc2 : registryContains (detachThread s id).1.threads id = false := by
      rw [hthreads]
      exact registryRemove_not_contained s.threads id hpos
    have herr2 := removeThreadById_eq_error (detachThread s id).1 id (Or.inr hc2)
    simp [joinThread, herr2]
  · intro s' addr' hok
    obtain ⟨_, hs'⟩ := removeThreadById_ok_inv s id s' addr' hok
    have hc2 : registryContains s'.threads id = false := by
      rw [hs', threads_updateObject]
      exact registryRemove_not_contained s.threads id hpos
    exact removeThreadById_eq_error s' id (Or.inr hc2)

/-- C9 witness: the race on the registered id 1 of the sample state, in both
orders. -/
theorem removal_race_spec_witness :
    ((joinThread sampleReg 1 (.ok 9)).2 = .ok 9
      ∧ detachThread (joinThread sampleReg 1 (.ok 9)).1 1
          = ((joinThread sampleReg 1 (.ok 9)).1, .error .invalidArgument))
    ∧ ((detachThread sampleReg 1).2 = .ok ()
      ∧ joinThread (detachThread sampleReg 1).1 1 (.ok 9)
          = ((detachThread sampleReg 1).1, .error .invalidArgument))
    ∧ (∀ s' addr, removeThreadById sampleReg 1 = .ok (s', addr) →
        removeThreadById s' 1 = .error .invalidArgument) :=
  removal_race_spec sampleReg 1 9 (by rfl)

/-- Empty sample state: one context, no objects, empty registry. -/
def sampleEmpty : SysState := ⟨[⟨7, .fresh⟩], [], [], 100⟩

/-- An entry function of the required type `(i32) -> i64`. -/
def goodEntry : Function := ⟨42, expectedEntryType⟩

/-- An entry function of shape `(i64) -> i64`, rejected by `createThread`. -/
def badEntry : Function := ⟨3, ⟨[ValueType.i64], [ValueType.i64]⟩⟩

/-- C4: `createThread` with a null entry function, or one whose type is not
exactly `(i32) -> i64`, fails with the signature-mismatch exception and
changes nothing: the returned state is the input state (registry included),
no id is allocated and no thread is spawned. -/
theorem createThread_signature_spec (s : SysState) (contextRuntimeData : Nat)
    (entryFunction : Option Function) (entryArgument : Nat)
    (h : ∀ f, entryFunction = some f → f.encodedType ≠ expectedEntryType) :
    createThread s contextRuntimeData entryFunction entryArgument
        = { state := s, ret := .error .signatureMismatch, spawned := none }
      ∧ (createThread s contextRuntimeData entryFunction entryArgument).state.threads
          = s.threads := by
  cases entryFunction with
  | none => exact ⟨rfl, rfl⟩
  | some f =>
    have hne := h f rfl
    constructor
    · simp [createThread, hne]
    · simp [createThread, hne]

/-- C4 witness: the spec's scenario, a function of shape `(i64) -> (i64)`. -/
theorem createThread_signature_spec_witness :
    createThread sampleEmpty 0 (some badEntry) 5
        = { state := sampleEmpty, ret := .error .signatureMismatch, spawned := none }
      ∧ (createThread sampleEmpty 0 (some badEntry) 5).state.threads
          = sampleEmpty.threads :=
  createThread_signature_spec sampleEmpty 0 (some badEntry) 5
    (fun f hf => by cases hf; decide)

/-- C8: id allocation assigns the smallest positive integer not currently in
use and never returns zero; a freshly allocated id was not previously mapped
and is mapped to the new object afterwards, other ids are untouched; an id
freed by removal is handed out again by the next allocation; and the ids
`createThread` and `forkThread` return are this allocator's (hence nonzero
and distinct from every currently-registered id). -/
theorem idAllocation_spec (t : List (Option Nat)) (addr addr2 : Nat) :
    0 < (registryAdd t addr).1
    ∧ registryContains t (registryAdd t addr).1 = false
    ∧ (∀ k, 0 < k → k < (registryAdd t addr).1 → registryContains t k = true)
    ∧ registryLookup (registryAdd t addr).2 (registryAdd t addr).1 = some addr
    ∧ (∀ k, k ≠ (registryAdd t addr).1 →
        registryLookup (registryAdd t addr).2 k = registryLookup t k)
    ∧ (registryAdd (registryRemove (registryAdd t addr).2 (registryAdd t addr).1) addr2).1
        = (registryAdd t addr).1
    ∧ (∀ s a, (allocateThreadId s a).1 = (registryAdd s.threads a).1)
    ∧ (∀ s ctx f n id, (createThread s ctx (some f) n).ret = .ok id →
        0 < id ∧ registryContains s.threads id = false)
    ∧ (∀ s ctx pa, 0 < (forkThread s ctx pa).parentRet
        ∧ registryContains s.threads (forkThread s ctx pa).parentRet = false) := by
  refine ⟨registryAdd_fst_pos t addr, registryAdd_not_contained t addr,
    registryAdd_lt_contained t addr, registryAdd_lookup_self t addr,
    registryAdd_lookup_ne t addr, ?_, fun s a => rfl, ?_, ?_⟩
  · apply registryAdd_eq_least _ addr2 _ (registryAdd_fst_pos t addr)
    · exact registryRemove_not_contained _ _ (registryAdd_fst_pos t addr)
    · intro j hj0 hjlt
      have hne : j ≠ (registryAdd t addr).1 := Nat.ne_of_lt hjlt
      unfold registryContains
      rw [registryRemove_lookup_ne _ _ _ hne, registryAdd_lookup_ne t addr j hne]
      exact registryAdd_lt_contained t addr j hj0 hjlt
  · intro s ctx f n id hok
    by_cases hty : f.encodedType = expectedEntryType
    · have hr : (createThread s ctx (some f) n).ret
          = .ok (registryAdd s.threads s.objects.length).1 := by
        simp [createThread, hty, allocateThreadId, allocObject, createContext,
          heapAddRef, updateObject, platformFreshHandle]
      rw [hr] at hok
      cases Except.ok.inj hok
      exact ⟨registryAdd_fst_pos _ _, registryAdd_not_contained _ _⟩
    · have hr : (createThread s ctx (some f) n).ret = .error .signatureMismatch := by
        simp [createThread, hty]
      rw [hr] at hok
      exact Except.noConfusion hok
  · intro s ctx pa
    have hr : (forkThread s ctx pa).parentRet
        = (registryAdd s.threads s.objects.length).1 := by
      simp [forkThread, forkThreadParentPath, forkThreadPre, allocateThreadId,
        platformFreshHandle, cloneContext, allocObject, heapAddRef, heapRemoveRef,
        updateObject]
    rw [hr]
    exact ⟨registryAdd_fst_pos _ _, registryAdd_not_contained _ _⟩

/-- C8 witness: a registry with a freed middle slot: the allocator hands out
id 2, reuses it again after removal, and `createThread`/`forkThread` return
that allocator's fresh nonzero ids. -/
theorem idAllocation_spec_witness :
    0 < (registryAdd [some 4, none, some 6] 9).1
    ∧ registryContains [some 4, none, some 6] (registryAdd [some 4, none, some 6] 9).1 = false
    ∧ registryContains [some 4, none, some 6] 1 = true
    ∧ registryLookup (registryAdd [some 4, none, some 6] 9).2
        (registryAdd [some 4, none, some 6] 9).1 = some 9
    ∧ registryLookup (registryAdd [some 4, none, some 6] 9).2 3
        = registryLookup [some 4, none, some 6] 3
    ∧ (registryAdd (registryRemove (registryAdd [some 4, none, some 6] 9).2
          (registryAdd [some 4, none, some 6] 9).1) 11).1
        = (registryAdd [some 4, none, some 6] 9).1
    ∧ (allocateThreadId sampleReg 0).1 = (registryAdd sampleReg.threads 0).1
    ∧ (0 < 1 ∧ registryContains sampleEmpty.threads 1 = false)
    ∧ (0 < (forkThread sampleReg 0 0).parentRet
        ∧ registryContains sampleReg.threads (forkThread sampleReg 0 0).parentRet = false) :=
  ⟨(idAllocation_spec [some 4, none, some 6] 9 11).1,
   (idAllocation_spec [some 4, none, some 6] 9 11).2.1,
   (idAllocation_spec [some 4, none, some 6] 9 11).2.2.1 1 (by decide) (by decide),
   (idAllocation_spec [some 4, none, some 6] 9 11).2.2.2.1,
   (idAllocation_spec [some 4, none, some 6] 9 11).2.2.2.2.1 3 (by decide),
   (idAllocation_spec [some 4, none, some 6] 9 11).2.2.2.2.2.1,
   (idAllocation_spec [some 4, none, some 6] 9 11).2.2.2.2.2.2.1 sampleReg 0,
   (idAllocation_spec [some 4, none, some 6] 9 11).2.2.2.2.2.2.2.1 sampleEmpty 0 goodEntry 5 1
     (by rfl),
   (idAllocation_spec [some 4, none, some 6] 9 11).2.2.2.2.2.2.2.2 sampleReg 0 0⟩

/-- C7: for a currently mapped id, `joinThread` waits in `Platform::joinThread`
for the target OS thread to terminate (the wait's outcome is the parameter):
on the successful path it returns exactly the exit code the platform join
produced, clears the target object's platform handle and releases the
call-scoped reference; when an error is raised during the wait, the error
propagates and the call-scoped reference is still released (the scoped
`IntrusiveSharedPtr` is destroyed on that exit path too, though the handle is
then not cleared). In both cases the id is no longer mapped afterwards. -/
theorem joinThread_spec (s : SysState) (threadId : Uptr) (addr : Nat) (obj : ThreadObj)
    (hl : registryLookup s.threads threadId = some addr)
    (hobj : getObj s addr = some obj) :
    (∀ code : Int,
      (joinThread s threadId (.ok code)).2 = .ok code
      ∧ getObj (joinThread s threadId (.ok code)).1 addr
          = (if obj.numRefs - 1 = 0 then none
             else some { obj with id := UINTPTR_MAX, platformThread := none,
                                  numRefs := obj.numRefs - 1 })
      ∧ registryContains (joinThread s threadId (.ok code)).1.threads threadId = false)
    ∧ (∀ e : Exn,
      (joinThread s threadId (.error e)).2 = .error e
      ∧ getObj (joinThread s threadId (.error e)).1 addr
          = (if obj.numRefs - 1 = 0 then none
             else some { obj with id := UINTPTR_MAX, numRefs := obj.numRefs - 1 })
      ∧ registryContains (joinThread s threadId (.error e)).1.threads threadId = false) := by
  have hpos : 0 < threadId := lookup_pos s.threads threadId addr hl
  have hrem := removeThreadById_eq_ok s threadId addr hl
  have hg1 : getObj (updateObject { s with threads := registryRemove s.threads threadId } addr
      (fun o => some { o with id := UINTPTR_MAX })) addr
      = some { obj with id := UINTPTR_MAX } := by
    rw [getObj_updateObject_self]
    have hgo : getObj { s with threads := registryRemove s.threads threadId } addr
        = getObj s addr := rfl
    rw [hgo, hobj]
    rfl
  constructor
  · intro code
    have hj : joinThread s threadId (.ok code)
        = (heapRemoveRef
            (updateObject
              (updateObject { s with threads := registryRemove s.threads threadId } addr
                (fun o => some { o with id := UINTPTR_MAX })) addr
              (fun o => some { o with platformThread := none })) addr,
           .ok code) := by
      simp [joinThread, hrem]
    refine ⟨by rw [hj], ?_, ?_⟩
    · rw [hj, heapRemoveRef, getObj_updateObject_self, getObj_updateObject_self, hg1]
      by_cases hz : obj.numRefs - 1 = 0
      · simp [hz]
      · simp [hz]
    · rw [hj, heapRemoveRef, threads_updateObject, threads_updateObject, threads_updateObject]
      exact registryRemove_not_contained s.threads threadId hpos
  · intro e
    have hj : joinThread s threadId (.error e)
        = (heapRemoveRef
            (updateObject { s with threads := registryRemove s.threads threadId } addr
              (fun o => some { o with id := UINTPTR_MAX })) addr,
           .error e) := by
      simp [joinThread, hrem]
    refine ⟨by rw [hj], ?_, ?_⟩
    · rw [hj, heapRemoveRef, getObj_updateObject_self, hg1]
      by_cases hz : obj.numRefs - 1 = 0
      · simp [hz]
      · simp [hz]
    · rw [hj, heapRemoveRef, threads_updateObject, threads_updateObject]
      exact registryRemove_not_contained s.threads threadId hpos

/-- C7 witness: joining the sample registered thread with a platform exit
code of 84, and with an error during the wait. -/
theorem joinThread_spec_witness :
    ((joinThread sampleReg 1 (.ok 84)).2 = .ok 84
      ∧ getObj (joinThread sampleReg 1 (.ok 84)).1 0
          = (if ({ defaultObj with id := 1, numRefs := 1 } : ThreadObj).numRefs - 1 = 0 then none
             else some { defaultObj with id := UINTPTR_MAX, platformThread := none,
                                         numRefs := 0 })
      ∧ registryContains (joinThread sampleReg 1 (.ok 84)).1.threads 1 = false)
    ∧ ((joinThread sampleReg 1 (.error .platformError)).2 = .error .platformError
      ∧ getObj (joinThread sampleReg 1 (.error .platformError)).1 0
          = (if ({ defaultObj with id := 1, numRefs := 1 } : ThreadObj).numRefs - 1 = 0 then none
             else some { defaultObj with id := UINTPTR_MAX, numRefs := 0 })
      ∧ registryContains (joinThread sampleReg 1 (.error .platformError)).1.threads 1 = false) :=
  ⟨(joinThread_spec sampleReg 1 0 { defaultObj with id := 1, numRefs := 1 } rfl rfl).1 84,
   (joinThread_spec sampleReg 1 0 { defaultObj with id := 1, numRefs := 1 } rfl rfl).2
     .platformError⟩

/-- C6: on a successful `createThread` call: a fresh execution context is
created in the caller's compartment; a control object owning that context,
the entry function and the argument is constructed and registered under the
returned nonzero id, the registry slot holding one reference and one extra
reference being added for the spawned OS thread (count 2); the spawned
thread's trampoline receives the object's address, installs it as the
Current-Thread Locator value, releases the spawn-time reference (the locator
acquisition takes the count to 3, the release back to 2) and then invokes
the entry function on the new context with the argument. -/
theorem createThread_success_spec (s : SysState) (ctx : Nat) (f : Function) (arg : Nat)
    (hty : f.encodedType = expectedEntryType) :
    (createThread s ctx (some f) arg).ret
        = .ok (registryAdd s.threads s.objects.length).1
    ∧ 0 < (registryAdd s.threads s.objects.length).1
    ∧ (createThread s ctx (some f) arg).state.contexts.getD s.contexts.length
        { compartment := 0, origin := .fresh }
        = { compartment := compartmentOfContext s ctx, origin := .fresh }
    ∧ registryLookup (createThread s ctx (some f) arg).state.threads
        (registryAdd s.threads s.objects.length).1 = some s.objects.length
    ∧ getObj (createThread s ctx (some f) arg).state s.objects.length
        = some { id := (registryAdd s.threads s.objects.length).1
                 numRefs := 2
                 platformThread := some s.nextPlatformHandle
                 context := s.contexts.length
                 entryFunction := f
                 argument := Value.i32 arg }
    ∧ (createThread s ctx (some f) arg).spawned = some s.objects.length
    ∧ (threadEntry (createThread s ctx (some f) arg).state s.objects.length).currentThread
        = some s.objects.length
    ∧ (getObj (heapAddRef (createThread s ctx (some f) arg).state s.objects.length 1)
        s.objects.length).map ThreadObj.numRefs = some 3
    ∧ (getObj (threadEntry (createThread s ctx (some f) arg).state s.objects.length).state
        s.objects.length).map ThreadObj.numRefs = some 2
    ∧ (threadEntry (createThread s ctx (some f) arg).state s.objects.length).call
        = { context := s.contexts.length, function := f, argument := Value.i32 arg } := by
  refine ⟨?_, registryAdd_fst_pos s.threads s.objects.length, ?_, ?_, ?_, ?_, ?_, ?_, ?_, ?_⟩
  all_goals
    simp [createThread, hty, allocateThreadId, threadEntry, heapAddRef, heapRemoveRef,
      fst_createContext, contexts_createContext, getObj_createContext, threads_createContext,
      objects_createContext, nextHandle_createContext, fst_allocObject, getObj_allocObject_at,
      threads_allocObject, contexts_allocObject, nextHandle_allocObject, fst_platformFreshHandle,
      getObj_platformFreshHandle, threads_platformFreshHandle, contexts_platformFreshHandle,
      getObj_setThreads, threads_setThreads, contexts_setThreads, nextHandle_setThreads,
      nextHandle_updateObject, threads_updateObject, contexts_updateObject,
      getObj_updateObject_self, objects_length_updateObject, objects_length_setThreads,
      getD_append_len, registryAdd_lookup_self]

/-- C6 witness: `createThread` on the empty sample state with the well-typed
entry function and argument 5. -/
theorem createThread_success_spec_witness :
    (createThread sampleEmpty 0 (some goodEntry) 5).ret
        = .ok (registryAdd sampleEmpty.threads sampleEmpty.objects.length).1
    ∧ 0 < (registryAdd sampleEmpty.threads sampleEmpty.objects.length).1
    ∧ (createThread sampleEmpty 0 (some goodEntry) 5).state.contexts.getD
        sampleEmpty.contexts.length { compartment := 0, origin := .fresh }
        = { compartment := compartmentOfContext sampleEmpty 0, origin := .fresh }
    ∧ registryLookup (createThread sampleEmpty 0 (some goodEntry) 5).state.threads
        (registryAdd sampleEmpty.threads sampleEmpty.objects.length).1
        = some sampleEmpty.objects.length
    ∧ getObj (createThread sampleEmpty 0 (some goodEntry) 5).state sampleEmpty.objects.length
        = some { id := (registryAdd sampleEmpty.threads sampleEmpty.objects.length).1
                 numRefs := 2
                 platformThread := some sampleEmpty.nextPlatformHandle
                 context := sampleEmpty.contexts.length
                 entryFunction := goodEntry
                 argument := Value.i32 5 }
    ∧ (createThread sampleEmpty 0 (some goodEntry) 5).spawned = some sampleEmpty.objects.length
    ∧ (threadEntry (createThread sampleEmpty 0 (some goodEntry) 5).state
        sampleEmpty.objects.length).currentThread = some sampleEmpty.objects.length
    ∧ (getObj (heapAddRef (createThread sampleEmpty 0 (some goodEntry) 5).state
        sampleEmpty.objects.length 1) sampleEmpty.objects.length).map ThreadObj.numRefs = some 3
    ∧ (getObj (threadEntry (createThread sampleEmpty 0 (some goodEntry) 5).state
        sampleEmpty.objects.length).state sampleEmpty.objects.length).map ThreadObj.numRefs
        = some 2
    ∧ (threadEntry (createThread sampleEmpty 0 (some goodEntry) 5).state
        sampleEmpty.objects.length).call
        = { context := sampleEmpty.contexts.length, function := goodEntry,
            argument := Value.i32 5 } :=
  createThread_success_spec sampleEmpty 0 goodEntry 5 rfl

/-- C1: a `forkThread` call whose calling OS thread has a current-thread
object returns on exactly the two continuations the model produces: the child
continuation receives 0, the parent continuation receives the allocator's
single fresh nonzero id (not mapped before the call, mapped to the child
object after it); the child control object owns a context cloned from the
parent's context and the very same entry function and argument values the
parent object held at the call instant, and the child continuation resumes
as that object on the cloned context. -/
theorem forkThread_spec (s : SysState) (ctx parentAddr : Nat) (parent : ThreadObj)
    (hp : getObj s parentAddr = some parent) (hctx : parent.context = ctx) :
    (forkThread s ctx parentAddr).childRet = 0
    ∧ (forkThread s ctx parentAddr).parentRet = (registryAdd s.threads s.objects.length).1
    ∧ 0 < (forkThread s ctx parentAddr).parentRet
    ∧ registryContains s.threads (forkThread s ctx parentAddr).parentRet = false
    ∧ registryLookup (forkThread s ctx parentAddr).state.threads
        (forkThread s ctx parentAddr).parentRet = some s.objects.length
    ∧ (forkThread s ctx parentAddr).childAddr = s.objects.length
    ∧ getObj (forkThread s ctx parentAddr).state s.objects.length
        = some { id := (registryAdd s.threads s.objects.length).1
                 numRefs := 2
                 platformThread := some s.nextPlatformHandle
                 context := s.contexts.length
                 entryFunction := parent.entryFunction
                 argument := parent.argument }
    ∧ (forkThread s ctx parentAddr).state.contexts.getD s.contexts.length
        { compartment := 0, origin := .fresh }
        = { compartment := compartmentOfContext s parent.context
            origin := .clonedFrom parent.context }
    ∧ (forkThread s ctx parentAddr).childCurrentThread = some s.objects.length
    ∧ (forkThread s ctx parentAddr).childContextRuntimeData = s.contexts.length
    ∧ (forkThread s ctx parentAddr).parentContextRuntimeData = ctx := by
  subst hctx
  refine ⟨rfl, ?_, ?_, ?_, ?_, ?_, ?_, ?_, ?_, ?_, rfl⟩
  · simp [forkThread, forkThreadPre, forkThreadParentPath, forkThreadChildPath,
      allocateThreadId, heapAddRef, heapRemoveRef,
      fst_cloneContext, contexts_cloneContext, getObj_cloneContext, threads_cloneContext,
      objects_cloneContext, nextHandle_cloneContext, fst_allocObject, getObj_allocObject_at,
      threads_allocObject, contexts_allocObject, nextHandle_allocObject, fst_platformFreshHandle,
      getObj_platformFreshHandle, threads_platformFreshHandle, contexts_platformFreshHandle,
      getObj_setThreads, threads_setThreads, contexts_setThreads, nextHandle_setThreads,
      nextHandle_updateObject, threads_updateObject, contexts_updateObject,
      getObj_updateObject_self, objects_length_updateObject, objects_length_setThreads,
      getD_append_len, registryAdd_lookup_self]
  · have hr : (forkThread s parent.context parentAddr).parentRet
        = (registryAdd s.threads s.objects.length).1 := by
      simp [forkThread, forkThreadPre, forkThreadParentPath, forkThreadChildPath,
        allocateThreadId, heapAddRef, heapRemoveRef, platformFreshHandle,
        cloneContext, allocObject, setThreads, updateObject]
    rw [hr]
    exact registryAdd_fst_pos s.threads s.objects.length
  · have hr : (forkThread s parent.context parentAddr).parentRet
        = (registryAdd s.threads s.objects.length).1 := by
      simp [forkThread, forkThreadPre, forkThreadParentPath, forkThreadChildPath,
        allocateThreadId, heapAddRef, heapRemoveRef, platformFreshHandle,
        cloneContext, allocObject, setThreads, updateObject]
    rw [hr]
    exact registryAdd_not_contained s.threads s.objects.length
  all_goals
    simp [forkThread, forkThreadPre, forkThreadParentPath, forkThreadChildPath,
      allocateThreadId, heapAddRef, heapRemoveRef, hp,
      fst_cloneContext, contexts_cloneContext, getObj_cloneContext, threads_cloneContext,
      objects_cloneContext, nextHandle_cloneContext, fst_allocObject, getObj_allocObject_at,
      threads_allocObject, contexts_allocObject, nextHandle_allocObject, fst_platformFreshHandle,
      getObj_platformFreshHandle, threads_platformFreshHandle, contexts_platformFreshHandle,
      getObj_setThreads, threads_setThreads, contexts_setThreads, nextHandle_setThreads,
      nextHandle_updateObject, threads_updateObject, contexts_updateObject,
      getObj_updateObject_self, objects_length_updateObject, objects_length_setThreads,
      getD_append_len, registryAdd_lookup_self]

/-- C1 witness: forking from the sample state's registered thread (address 0,
running on context 0). -/
theorem forkThread_spec_witness :
    (forkThread sampleReg 0 0).childRet = 0
    ∧ (forkThread sampleReg 0 0).parentRet
        = (registryAdd sampleReg.threads sampleReg.objects.length).1
    ∧ 0 < (forkThread sampleReg 0 0).parentRet
    ∧ registryContains sampleReg.threads (forkThread sampleReg 0 0).parentRet = false
    ∧ registryLookup (forkThread sampleReg 0 0).state.threads
        (forkThread sampleReg 0 0).parentRet = some sampleReg.objects.length
    ∧ (forkThread sampleReg 0 0).childAddr = sampleReg.objects.length
    ∧ getObj (forkThread sampleReg 0 0).state sampleReg.objects.length
        = some { id := (registryAdd sampleReg.threads sampleReg.objects.length).1
                 numRefs := 2
                 platformThread := some sampleReg.nextPlatformHandle
                 context := sampleReg.contexts.length
                 entryFunction := ({ defaultObj with id := 1, numRefs := 1 } : ThreadObj).entryFunction
                 argument := ({ defaultObj with id := 1, numRefs := 1 } : ThreadObj).argument }
    ∧ (forkThread sampleReg 0 0).state.contexts.getD sampleReg.contexts.length
        { compartment := 0, origin := .fresh }
        = { compartment :=
              compartmentOfContext sampleReg ({ defaultObj with id := 1, numRefs := 1 } : ThreadObj).context
            origin := .clonedFrom ({ defaultObj with id := 1, numRefs := 1 } : ThreadObj).context }
    ∧ (forkThread sampleReg 0 0).childCurrentThread = some sampleReg.objects.length
    ∧ (forkThread sampleReg 0 0).childContextRuntimeData = sampleReg.contexts.length
    ∧ (forkThread sampleReg 0 0).parentContextRuntimeData = 0 :=
  forkThread_spec sampleReg 0 0 { defaultObj with id := 1, numRefs := 1 } rfl rfl

/-- C2: `forkThread` pre-increments the freshly constructed child object's
reference count by exactly two — one single `addRef(2)` event, taking the
fresh object's count to 2 — before the stack-duplicating fork primitive, and
afterwards each of the two continuations releases exactly one of those
references (each continuation's trace is one owner acquisition — registry
slot resp. child locator — and exactly one release), leaving the count at 2:
one reference per surviving owner. -/
theorem forkThread_refcount_spec (s : SysState) (ctx parentAddr : Nat) :
    (forkThreadPre s ctx parentAddr).events
        = [RefEvent.acquire (forkThreadPre s ctx parentAddr).childAddr 2]
    ∧ (getObj (forkThreadPre s ctx parentAddr).state
        (forkThreadPre s ctx parentAddr).childAddr).map ThreadObj.numRefs = some 2
    ∧ (forkThread s ctx parentAddr).preEvents
        = [RefEvent.acquire (forkThread s ctx parentAddr).childAddr 2]
    ∧ (forkThread s ctx parentAddr).parentEvents
        = [RefEvent.acquire (forkThread s ctx parentAddr).childAddr 1,
           RefEvent.release (forkThread s ctx parentAddr).childAddr]
    ∧ (forkThread s ctx parentAddr).childEvents
        = [RefEvent.acquire (forkThread s ctx parentAddr).childAddr 1,
           RefEvent.release (forkThread s ctx parentAddr).childAddr]
    ∧ ((forkThread s ctx parentAddr).parentEvents.filter
        (fun e => e.releases (forkThread s ctx parentAddr).childAddr)).length = 1
    ∧ ((forkThread s ctx parentAddr).childEvents.filter
        (fun e => e.releases (forkThread s ctx parentAddr).childAddr)).length = 1
    ∧ (getObj (forkThread s ctx parentAddr).state (forkThread s ctx parentAddr).childAddr).map
        ThreadObj.numRefs = some 2
    ∧ registryLookup (forkThread s ctx parentAddr).state.threads
        (forkThread s ctx parentAddr).parentRet = some (forkThread s ctx parentAddr).childAddr
    ∧ (forkThread s ctx parentAddr).childCurrentThread
        = some (forkThread s ctx parentAddr).childAddr := by
  refine ⟨rfl, ?_, rfl, rfl, rfl, ?_, ?_, ?_, ?_, rfl⟩
  all_goals
    simp [forkThread, forkThreadPre, forkThreadParentPath, forkThreadChildPath,
      allocateThreadId, heapAddRef, heapRemoveRef, RefEvent.releases, List.filter,
      fst_cloneContext, contexts_cloneContext, getObj_cloneContext, threads_cloneContext,
      objects_cloneContext, nextHandle_cloneContext, fst_allocObject, getObj_allocObject_at,
      threads_allocObject, contexts_allocObject, nextHandle_allocObject, fst_platformFreshHandle,
      getObj_platformFreshHandle, threads_platformFreshHandle, contexts_platformFreshHandle,
      getObj_setThreads, threads_setThreads, contexts_setThreads, nextHandle_setThreads,
      nextHandle_updateObject, threads_updateObject, contexts_updateObject,
      getObj_updateObject_self, objects_length_updateObject, objects_length_setThreads,
      getD_append_len, registryAdd_lookup_self]

end ThreadTest
